import Mathlib

/-
Shallow embedding of `parity/dapps.rs`: the name-registrar contract-call
abstraction (full-node and light-node variants), the synthetic-transaction
light-call path, the dapps middleware factory, and the configuration
defaults.  Rust `Bytes` is a list of naturals, `PathBuf` is a string,
futures are embedded by passing their eventual resolution explicitly.
-/

namespace ParityDapps

/-- Variable-length opaque payload (call input and output bytes). -/
abbrev Bytes := List Nat

/-- Fixed-width account or contract identifier (`util::Address`, H160). -/
structure Address where
  val : Nat
deriving DecidableEq, Repr

/-- The default (zero) address, `Address::default()`. -/
def Address.zeroDefault : Address := ⟨0⟩

/-- Value of a single hexadecimal digit, `none` for a non-hex character. -/
def hexDigitVal (c : Char) : Option Nat :=
  if c.isDigit then some (c.toNat - 48)
  else if ('a' ≤ c && c ≤ 'f') then some (c.toNat - 87)
  else if ('A' ≤ c && c ≤ 'F') then some (c.toNat - 55)
  else none

/-- Modelled from the spec: the address parser used by `registrar.parse()`
(`FromStr` for the fixed-width `Address` in the `util` crate, which is not
part of the excerpt).  The spec describes addresses as fixed-width
identifiers and names wrong-length hex as a malformed value, so the parser
accepts exactly 40 hexadecimal characters and reports a textual parse
error otherwise. -/
def Address.parse (s : String) : Except String Address :=
  if s.data.length ≠ 40 then Except.error ("Invalid input length")
  else if s.data.all (fun c => (hexDigitVal c).isSome) then
    Except.ok ⟨s.data.foldl (fun a c => a * 16 + (hexDigitVal c).getD 0) 0⟩
  else Except.error ("Invalid character")

/-- Consensus engine handle: the configuration parameters map
(`additional_params`) and the configured account start nonce. -/
structure Engine where
  additional_params : String → Option String
  account_start_nonce : Nat

/-- Opaque block header (contents irrelevant to this excerpt). -/
structure Header where
  id : Nat
deriving DecidableEq, Repr

/-- Opaque execution environment info (contents irrelevant here). -/
structure EnvInfo where
  id : Nat
deriving DecidableEq, Repr

/-- Full chain client: its parameters map and its synchronous
`call_contract` primitive against the latest block. -/
structure FullClient where
  additional_params : String → Option String
  call_contract : Address → Bytes → Except String Bytes

/-- Light chain client: engine handle plus cached best header and latest
environment info. -/
structure LightClient where
  engine : Engine
  best_block_header : Header
  latest_env_info : EnvInfo

/-- Light network service handle: `with_context` yields a peer context
when networking is up, nothing when it is disabled or unavailable.  The
context itself is opaque. -/
structure LightSync where
  context : Option Nat

/-- Registrar implementation of the full client. -/
structure FullRegistrar where
  client : FullClient

/-- Registrar implementation for the light client.  The on-demand service
itself is external; its eventual resolution is passed explicitly to
`LightRegistrar.call`. -/
structure LightRegistrar where
  client : LightClient
  sync : LightSync

/-- Shared body of both `registrar` implementations: read the
`"registrar"` parameter, then parse it as an address. -/
def registrar_lookup (params : String → Option String) : Except String Address :=
  match params ("registrar") with
  | none => Except.error ("Registrar not defined.")
  | some registrar =>
    match Address.parse registrar with
    | Except.ok a => Except.ok a
    | Except.error e => Except.error ("Invalid registrar address: " ++ e)

/-- `FullRegistrar::registrar`: reads `"registrar"` from the full client's
`additional_params`. -/
def FullRegistrar.registrar (r : FullRegistrar) : Except String Address :=
  registrar_lookup r.client.additional_params

/-- `FullRegistrar::call`: delegates synchronously to the client's
call-contract primitive at the latest block. -/
def FullRegistrar.call (r : FullRegistrar) (address : Address) (data : Bytes) :
    Except String Bytes :=
  r.client.call_contract address data

/-- `LightRegistrar::registrar`: reads `"registrar"` from the light
client's engine parameters. -/
def LightRegistrar.registrar (r : LightRegistrar) : Except String Address :=
  registrar_lookup r.client.engine.additional_params

/-- Transaction action: contract creation or a call to an address. -/
inductive Action where
  | create : Action
  | call : Address → Action
deriving DecidableEq, Repr

/-- An unsigned transaction (`ethcore::transaction::Transaction`). -/
structure Transaction where
  nonce : Nat
  action : Action
  gas : Nat
  gas_price : Nat
  value : Nat
  data : Bytes
deriving DecidableEq, Repr

/-- A fake-signed transaction: the transaction body paired with the
claimed sender. -/
structure SignedTransaction where
  tx : Transaction
  sender : Address
deriving DecidableEq, Repr

/-- Modelled from the spec: `Transaction::fake_sign` (in the `ethcore`
crate, outside the excerpt) produces a well-formed signed-transaction
structure that carries no real authorization, recording the given address
as sender. -/
def Transaction.fake_sign (t : Transaction) (sender : Address) : SignedTransaction :=
  ⟨t, sender⟩

/-- The proof request submitted to the on-demand service
(`on_demand::request::TransactionProof`). -/
structure TransactionProof where
  tx : SignedTransaction
  header : Header
  env_info : EnvInfo
  engine : Engine

/-- Result of the proof-backed execution: the output bytes. -/
structure Executed where
  output : Bytes
deriving DecidableEq, Repr

/-- The synthetic transaction built by `LightRegistrar::call`
(lines 99-106 of the source): nonce from the engine's start nonce, a call
action to the target, a fixed 50,000,000 gas ceiling, zero gas price and
value, the input as payload, fake-signed with the default address. -/
def build_call_tx (engine : Engine) (address : Address) (data : Bytes) :
    SignedTransaction :=
  Transaction.fake_sign
    { nonce := engine.account_start_nonce
      action := Action.call address
      gas := 50000000
      gas_price := 0
      value := 0
      data := data }
    Address.zeroDefault

/-- The proof request `LightRegistrar::call` submits: `none` when the sync
layer provides no peer context (no request is constructed), otherwise the
transaction-proof request built from the synthetic transaction and the
chain-context snapshot. -/
def LightRegistrar.call_request (r : LightRegistrar) (address : Address) (data : Bytes) :
    Option TransactionProof :=
  match r.sync.context with
  | none => none
  | some _ =>
    some
      { tx := build_call_tx r.client.engine address data
        header := r.client.best_block_header
        env_info := r.client.latest_env_info
        engine := r.client.engine }

/-- The `.then` resolution closure of `LightRegistrar::call`
(lines 111-115): the outer `Except Unit` is the on-demand future (error
means the service dropped the request), the inner `Except String` is the
execution result. -/
def resolve_proof_response (res : Except Unit (Except String Executed)) :
    Except String Bytes :=
  match res with
  | Except.ok (Except.ok executed) => Except.ok executed.output
  | Except.ok (Except.error e) =>
    Except.error ("Failed to execute transaction: " ++ e)
  | Except.error _ =>
    Except.error ("On-demand service dropped request unexpectedly.")

/-- `LightRegistrar::call`, with the eventual resolution of the on-demand
future passed explicitly: with no peer context the returned future is the
immediately-resolved `future::err` and the outcome is ignored; with a
context the outcome is resolved through `resolve_proof_response`. -/
def LightRegistrar.call (r : LightRegistrar) (address : Address) (data : Bytes)
    (outcome : Except Unit (Except String Executed)) : Except String Bytes :=
  match r.call_request address data with
  | some _ => resolve_proof_response outcome
  | none => Except.error ("cannot query registry: network disabled")

/-- Dapps hosting configuration: enabled flag, dapps root path, extra
dapp directories (paths as strings). -/
structure Configuration where
  enabled : Bool
  dapps_path : String
  extra_dapps : List String
deriving DecidableEq, Repr

/-- Environment for the path helpers: the user's home directory and the
result of `default_data_path()` (the `dir` crate, outside the excerpt). -/
structure PathEnv where
  home_dir : String
  data_dir : String

/-- Left-to-right, non-overlapping replacement of every occurrence of
`pattern` by `repl`, with explicit fuel (the input length suffices for a
non-empty pattern). -/
def substAux (pattern repl : List Char) : Nat → List Char → List Char
  | 0, s => s
  | _ + 1, [] => []
  | fuel + 1, c :: rest =>
    if pattern.isPrefixOf (c :: rest) then
      repl ++ substAux pattern repl fuel ((c :: rest).drop pattern.length)
    else
      c :: substAux pattern repl fuel rest

/-- String-level wrapper for `substAux`. -/
def substitute (s pattern repl : String) : String :=
  ⟨substAux pattern.data repl.data s.data.length s.data⟩

/-- Modelled from the spec: `helpers::replace_home` (outside the excerpt)
substitutes the `$HOME` placeholder with the home directory and the
`$BASE` placeholder with the given base data directory, producing the
home-substituted path. -/
def replace_home (env : PathEnv) (arg : String) : String :=
  substitute (substitute arg ("$HOME") env.home_dir) ("$BASE") env.data_dir

/-- `Configuration::default`: hosting enabled, dapps path the
home-substituted `$BASE/dapps` under the default data directory, no extra
dapps. -/
def Configuration.defaultConfig (env : PathEnv) : Configuration :=
  { enabled := true
    dapps_path := replace_home env ("$BASE/dapps")
    extra_dapps := [] }

/-- Signer service surface used by the factory. -/
structure SignerService where
  is_valid_web_proxy_access_token : String → Bool
  address : Address

/-- Opaque content-fetch client handle. -/
structure FetchClient where
  id : Nat
deriving DecidableEq, Repr

/-- Opaque async task scheduler handle. -/
structure TokioRemote where
  id : Nat
deriving DecidableEq, Repr

/-- Opaque shared contract-client (registrar) handle. -/
structure ContractClientHandle where
  id : Nat
deriving DecidableEq, Repr

/-- Sync-status probe, a nullary boolean predicate. -/
structure SyncStatusProbe where
  status : Unit → Bool

/-- Dependency bundle handed to the middleware factory. -/
structure Dependencies where
  sync_status : SyncStatusProbe
  contract_client : ContractClientHandle
  remote : TokioRemote
  fetch : FetchClient
  signer : SignerService

namespace server

/-- The middleware of the hosting-disabled build variant
(`cfg(not(feature = "dapps"))`): a unit struct whose request handler is
`unreachable!()`. -/
structure Middleware where
  unit : Unit
deriving DecidableEq, Repr

/-- `server::dapps_middleware` of the hosting-disabled build variant:
ignores every input and fails with the fixed error message. -/
def dapps_middleware (_deps : Dependencies) (_dapps_path : String)
    (_extra_dapps : List String) : Except String Middleware :=
  Except.error ("Your Parity version has been compiled without WebApps support.")

end server

/-- The factory `new`, abstracted over the middleware constructor that the
build compiled in: if disabled, return explicit absence; otherwise invoke
the constructor and wrap its result in `some`. -/
def new_with
    (middleware_ctor : Dependencies → String → List String → Except String server.Middleware)
    (configuration : Configuration) (deps : Dependencies) :
    Except String (Option server.Middleware) :=
  if !configuration.enabled then Except.ok none
  else
    (middleware_ctor deps configuration.dapps_path configuration.extra_dapps).map some

/-- The factory `new` as compiled with the hosting-disabled variant in
scope: `new_with` applied to that variant's `dapps_middleware`. -/
def new (configuration : Configuration) (deps : Dependencies) :
    Except String (Option server.Middleware) :=
  new_with server.dapps_middleware configuration deps

/-- Helper: with a peer context present, `LightRegistrar::call` resolves
the on-demand outcome through `resolve_proof_response`. -/
theorem light_call_with_context (r : LightRegistrar) (address : Address)
    (data : Bytes) (c : Nat) (h : r.sync.context = some c)
    (outcome : Except Unit (Except String Executed)) :
    r.call address data outcome = resolve_proof_response outcome := by
  unfold LightRegistrar.call LightRegistrar.call_request
  rw [h]

/-- Claim C1: whenever the proof request resolves with inner execution
success, the future returned by `LightRegistrar::call` resolves to success
whose byte sequence equals the execution result's output bytes. -/
theorem light_call_inner_success_output (r : LightRegistrar) (address : Address)
    (data : Bytes) (c : Nat) (ex : Executed) (h : r.sync.context = some c) :
    r.call address data (Except.ok (Except.ok ex)) = Except.ok ex.output := by
  rw [light_call_with_context r address data c h]
  rfl

theorem light_call_inner_success_output_witness :
    LightRegistrar.call ⟨⟨⟨fun _ => none, 7⟩, ⟨0⟩, ⟨0⟩⟩, ⟨some 0⟩⟩ ⟨5⟩ [1, 2]
      (Except.ok (Except.ok ⟨[3, 4]⟩)) = Except.ok [3, 4] :=
  light_call_inner_success_output ⟨⟨⟨fun _ => none, 7⟩, ⟨0⟩, ⟨0⟩⟩, ⟨some 0⟩⟩
    ⟨5⟩ [1, 2] 0 ⟨[3, 4]⟩ rfl

/-- Claim C2: with no peer context from the sync layer,
`LightRegistrar::call` resolves immediately to the network-disabled error
whatever the on-demand outcome would have been, and no proof request is
constructed. -/
theorem light_call_no_context_network_disabled (r : LightRegistrar)
    (address : Address) (data : Bytes) (h : r.sync.context = none) :
    (∀ outcome, r.call address data outcome =
        Except.error ("cannot query registry: network disabled")) ∧
    r.call_request address data = none := by
  constructor
  · intro outcome
    unfold LightRegistrar.call LightRegistrar.call_request
    rw [h]
  · unfold LightRegistrar.call_request
    rw [h]

theorem light_call_no_context_network_disabled_witness :
    LightRegistrar.call ⟨⟨⟨fun _ => none, 7⟩, ⟨0⟩, ⟨0⟩⟩, ⟨none⟩⟩ ⟨5⟩ [1]
      (Except.ok (Except.ok ⟨[9]⟩)) =
      Except.error ("cannot query registry: network disabled") :=
  (light_call_no_context_network_disabled ⟨⟨⟨fun _ => none, 7⟩, ⟨0⟩, ⟨0⟩⟩, ⟨none⟩⟩
    ⟨5⟩ [1] rfl).1 (Except.ok (Except.ok ⟨[9]⟩))

/-- Claim C3: with a peer context present, an inner execution error
resolves `LightRegistrar::call` to the execution-failed message carrying
the collaborator's description verbatim, an outer failure of the on-demand
future resolves it to the request-dropped message, and every error
resolution is one of those two. -/
theorem light_call_resolution_error_outcomes (r : LightRegistrar)
    (address : Address) (data : Bytes) (c : Nat) (h : r.sync.context = some c) :
    (∀ e, r.call address data (Except.ok (Except.error e)) =
        Except.error ("Failed to execute transaction: " ++ e)) ∧
    (∀ u, r.call address data (Except.error u) =
        Except.error ("On-demand service dropped request unexpectedly.")) ∧
    (∀ outcome msg, r.call address data outcome = Except.error msg →
        (∃ e, outcome = Except.ok (Except.error e) ∧
            msg = "Failed to execute transaction: " ++ e) ∨
        (∃ u, outcome = Except.error u ∧
            msg = "On-demand service dropped request unexpectedly.")) := by
  refine ⟨?_, ?_, ?_⟩
  · intro e
    rw [light_call_with_context r address data c h]
    rfl
  · intro u
    rw [light_call_with_context r address data c h]
    rfl
  · intro outcome msg hmsg
    rw [light_call_with_context r address data c h] at hmsg
    match outcome, hmsg with
    | Except.ok (Except.error e), hmsg =>
      exact Or.inl ⟨e, rfl, (Except.error.injEq _ _).mp hmsg.symm⟩
    | Except.error u, hmsg =>
      exact Or.inr ⟨u, rfl, (Except.error.injEq _ _).mp hmsg.symm⟩

theorem light_call_resolution_error_outcomes_witness :
    LightRegistrar.call ⟨⟨⟨fun _ => none, 7⟩, ⟨0⟩, ⟨0⟩⟩, ⟨some 1⟩⟩ ⟨5⟩ []
      (Except.ok (Except.error ("boom"))) =
      Except.error ("Failed to execute transaction: " ++ "boom") :=
  (light_call_resolution_error_outcomes ⟨⟨⟨fun _ => none, 7⟩, ⟨0⟩, ⟨0⟩⟩, ⟨some 1⟩⟩
    ⟨5⟩ [] 1 rfl).1 ("boom")

/-- Claim C4: with a peer context present, the submitted proof request
carries exactly the synthetic transaction of `build_call_tx`, whose nonce
is the engine's account start nonce, whose action is a call to the given
address, with the fixed 50,000,000 gas ceiling, zero gas price, zero
value, the input bytes as payload, fake-signed with the default (zero)
sender address. -/
theorem light_call_synthetic_tx_shape (r : LightRegistrar) (address : Address)
    (data : Bytes) (c : Nat) (h : r.sync.context = some c) :
    r.call_request address data = some
      { tx := build_call_tx r.client.engine address data
        header := r.client.best_block_header
        env_info := r.client.latest_env_info
        engine := r.client.engine } ∧
    (build_call_tx r.client.engine address data).tx.nonce
      = r.client.engine.account_start_nonce ∧
    (build_call_tx r.client.engine address data).tx.action = Action.call address ∧
    (build_call_tx r.client.engine address data).tx.gas = 50000000 ∧
    (build_call_tx r.client.engine address data).tx.gas_price = 0 ∧
    (build_call_tx r.client.engine address data).tx.value = 0 ∧
    (build_call_tx r.client.engine address data).tx.data = data ∧
    (build_call_tx r.client.engine address data).sender = Address.zeroDefault := by
  refine ⟨?_, rfl, rfl, rfl, rfl, rfl, rfl, rfl⟩
  unfold LightRegistrar.call_request
  rw [h]

theorem light_call_synthetic_tx_shape_witness :
    LightRegistrar.call_request ⟨⟨⟨fun _ => none, 7⟩, ⟨3⟩, ⟨4⟩⟩, ⟨some 2⟩⟩ ⟨5⟩ [8] =
      some ⟨⟨⟨7, Action.call ⟨5⟩, 50000000, 0, 0, [8]⟩, ⟨0⟩⟩, ⟨3⟩, ⟨4⟩, ⟨fun _ => none, 7⟩⟩ :=
  (light_call_synthetic_tx_shape ⟨⟨⟨fun _ => none, 7⟩, ⟨3⟩, ⟨4⟩⟩, ⟨some 2⟩⟩
    ⟨5⟩ [8] 2 rfl).1

/-- Claim C5: the synthetic-transaction construction is a deterministic
function of engine (hence nonce), address and input: identical inputs give
equal transactions, hence identical bytes under any serialization. -/
theorem synthetic_tx_deterministic (e1 e2 : Engine) (a1 a2 : Address)
    (d1 d2 : Bytes) (he : e1 = e2) (ha : a1 = a2) (hd : d1 = d2) :
    build_call_tx e1 a1 d1 = build_call_tx e2 a2 d2 ∧
    ∀ serialize : SignedTransaction → Bytes,
      serialize (build_call_tx e1 a1 d1) = serialize (build_call_tx e2 a2 d2) := by
  subst he
  subst ha
  subst hd
  exact ⟨rfl, fun _ => rfl⟩

theorem synthetic_tx_deterministic_witness :
    build_call_tx ⟨fun _ => none, 1⟩ ⟨2⟩ [3] = build_call_tx ⟨fun _ => none, 1⟩ ⟨2⟩ [3] :=
  (synthetic_tx_deterministic ⟨fun _ => none, 1⟩ ⟨fun _ => none, 1⟩ ⟨2⟩ ⟨2⟩ [3] [3]
    rfl rfl rfl).1

/-- Claim C6: when the engine configuration has no registrar parameter,
`registrar` fails with the registrar-not-defined error, for both the
full-node and the light-node implementations. -/
theorem registrar_missing_not_configured (f : FullRegistrar) (l : LightRegistrar)
    (hf : f.client.additional_params ("registrar") = none)
    (hl : l.client.engine.additional_params ("registrar") = none) :
    f.registrar = Except.error ("Registrar not defined.") ∧
    l.registrar = Except.error ("Registrar not defined.") := by
  constructor
  · unfold FullRegistrar.registrar registrar_lookup
    rw [hf]
  · unfold LightRegistrar.registrar registrar_lookup
    rw [hl]

theorem registrar_missing_not_configured_witness :
    FullRegistrar.registrar ⟨⟨fun _ => none, fun _ _ => Except.ok []⟩⟩ =
      Except.error ("Registrar not defined.") :=
  (registrar_missing_not_configured ⟨⟨fun _ => none, fun _ _ => Except.ok []⟩⟩
    ⟨⟨⟨fun _ => none, 0⟩, ⟨0⟩, ⟨0⟩⟩, ⟨none⟩⟩ rfl rfl).1

/-- Claim C7: when the stored registrar value does not parse as an
address, `registrar` fails with the invalid-address message, which is
non-empty and contains the underlying parse diagnostic, for both the
full-node and the light-node implementations. -/
theorem registrar_malformed_invalid_address (f : FullRegistrar) (l : LightRegistrar)
    (s t e1 e2 : String)
    (hf : f.client.additional_params ("registrar") = some s)
    (hl : l.client.engine.additional_params ("registrar") = some t)
    (hs : Address.parse s = Except.error e1)
    (ht : Address.parse t = Except.error e2) :
    (f.registrar = Except.error ("Invalid registrar address: " ++ e1) ∧
      ("Invalid registrar address: " ++ e1).data ≠ [] ∧
      ∃ p, "Invalid registrar address: " ++ e1 = p ++ e1) ∧
    (l.registrar = Except.error ("Invalid registrar address: " ++ e2) ∧
      ("Invalid registrar address: " ++ e2).data ≠ [] ∧
      ∃ p, "Invalid registrar address: " ++ e2 = p ++ e2) := by
  have hne : ∀ u : String, ("Invalid registrar address: " ++ u).data ≠ [] := by
    intro u hu
    rw [String.data_append] at hu
    exact List.cons_ne_nil _ _ (List.append_eq_nil.mp hu).1
  constructor
  · refine ⟨?_, hne e1, "Invalid registrar address: ", rfl⟩
    unfold FullRegistrar.registrar registrar_lookup
    rw [hf]
    show (match Address.parse s with
      | Except.ok a => Except.ok a
      | Except.error e => Except.error ("Invalid registrar address: " ++ e)) =
      Except.error ("Invalid registrar address: " ++ e1)
    rw [hs]
  · refine ⟨?_, hne e2, "Invalid registrar address: ", rfl⟩
    unfold LightRegistrar.registrar registrar_lookup
    rw [hl]
    show (match Address.parse t with
      | Except.ok a => Except.ok a
      | Except.error e => Except.error ("Invalid registrar address: " ++ e)) =
      Except.error ("Invalid registrar address: " ++ e2)
    rw [ht]

theorem registrar_malformed_invalid_address_witness :
    FullRegistrar.registrar ⟨⟨fun _ => some ("xyz"), fun _ _ => Except.ok []⟩⟩ =
      Except.error ("Invalid registrar address: " ++ "Invalid input length") :=
  (registrar_malformed_invalid_address
    ⟨⟨fun _ => some ("xyz"), fun _ _ => Except.ok []⟩⟩
    ⟨⟨⟨fun _ => some ("ab"), 0⟩, ⟨0⟩, ⟨0⟩⟩, ⟨none⟩⟩
    ("xyz") ("ab") ("Invalid input length") ("Invalid input length")
    rfl rfl rfl rfl).1.1

/-- Claim C8: in the hosting-disabled build variant, `dapps_middleware`
fails for every input with exactly the fixed literal error message, so no
middleware value (and hence no reachable request handler) is ever
produced. -/
theorem dapps_middleware_disabled_fixed_error (deps : Dependencies)
    (dapps_path : String) (extra_dapps : List String) :
    server.dapps_middleware deps dapps_path extra_dapps =
      Except.error ("Your Parity version has been compiled without WebApps support.") ∧
    (server.dapps_middleware deps dapps_path extra_dapps).isOk = false :=
  ⟨rfl, rfl⟩

/-- Claim C9: whatever middleware constructor the build compiled in, a
disabled configuration makes the factory return the explicit no-middleware
result without invoking the constructor. -/
theorem factory_disabled_returns_none
    (mk : Dependencies → String → List String → Except String server.Middleware)
    (configuration : Configuration) (deps : Dependencies)
    (h : configuration.enabled = false) :
    new_with mk configuration deps = Except.ok none := by
  unfold new_with
  rw [h]
  rfl

theorem factory_disabled_returns_none_witness :
    new ⟨false, "p", []⟩
      ⟨⟨fun _ => true⟩, ⟨0⟩, ⟨0⟩, ⟨0⟩, ⟨fun _ => false, ⟨0⟩⟩⟩ = Except.ok none :=
  factory_disabled_returns_none server.dapps_middleware ⟨false, "p", []⟩
    ⟨⟨fun _ => true⟩, ⟨0⟩, ⟨0⟩, ⟨0⟩, ⟨fun _ => false, ⟨0⟩⟩⟩ rfl

/-- Claim C10: the default configuration enables hosting, uses the
home-substituted `$BASE/dapps` path under the default data directory, and
has no extra dapps; on a concrete environment the path evaluates to the
`dapps` directory under the data directory. -/
theorem configuration_default_fields (env : PathEnv) :
    (Configuration.defaultConfig env).enabled = true ∧
    (Configuration.defaultConfig env).dapps_path = replace_home env ("$BASE/dapps") ∧
    (Configuration.defaultConfig env).extra_dapps = [] ∧
    (Configuration.defaultConfig ⟨"/home/u", "/data"⟩).dapps_path = "/data/dapps" :=
  ⟨rfl, rfl, rfl, by decide⟩

end ParityDapps
